import Mathlib

/-!
Verification development for the drag-and-drop PDF-annotation demo.

The repository is a thin React integration layer over a vendor PDF SDK:
a sidebar page with draggable annotation-tool icons (`handleDragStart`,
`handleDragEnd`), and a `Viewer` component that loads the SDK and wires
`dragover` / `drop` DOM events to SDK object-creation calls
(`setupDragAndDrop` in `src/components/viewer.tsx`).

We shallow-embed the repository's own logic: the recursive DOM class
lookup `closestByClass`, the page-element resolution, the page-index
fallback, and the drop handler's switch on the dragged label.  The
vendor SDK and browser are modelled as an environment: an opaque
coordinate transform, an optional page-from-point query, a fallible
creation call, and a supply of generated instant IDs.  Handler
invocations are pure functions from the event plus environment to an
outcome record describing every externally visible effect
(preventDefault, stopPropagation, the payload of each `instance.create`
call, logged errors).
-/

set_option autoImplicit false

namespace DragDrop

/-- JavaScript string `includes` on the underlying character lists:
`listContainsSub hay pat` is true iff `pat` occurs as a contiguous
substring of `hay`. -/
def listContainsSub : List Char → List Char → Bool
  | hay, pat =>
    if pat.isPrefixOf hay then true
    else
      match hay with
      | [] => false
      | _ :: t => listContainsSub t pat

/-- JavaScript `String.prototype.includes` for the patterns used by the
source (all non-empty literals). -/
def strIncludes (s pat : String) : Bool :=
  listContainsSub s.data pat.data

/-- JavaScript `String.prototype.toLowerCase` for the ASCII class names
and labels the source lowercases, evaluable by kernel reduction. -/
def jsToLower (s : String) : String :=
  ⟨s.data.map Char.toLower⟩

/-- JavaScript `a || b` on strings where `a` may be `undefined`
(modelled as `none`): the empty string is falsy, so it also falls back
to `b`.  Models `dragEvent.dataTransfer?.getData('text') || ''`,
`dataset.pageIndex || '0'` and `label || 'Annotation'`. -/
def jsOrStr (a : Option String) (b : String) : String :=
  match a with
  | some s => if s = "" then b else s
  | none => b

/-- JavaScript `parseInt` restricted to the decimal strings that occur
as `data-page-index` attribute values: optional leading whitespace,
optional sign, then decimal digits; `none` models `NaN` (no digits). -/
def jsParseInt (s : String) : Option Int :=
  let cs := s.data.dropWhile (fun c => c = ' ' || c = '\t' || c = '\n' || c = '\r')
  let signAndRest : Int × List Char :=
    match cs with
    | '-' :: r => (-1, r)
    | '+' :: r => (1, r)
    | r => (1, r)
  let ds := signAndRest.2.takeWhile Char.isDigit
  if ds.isEmpty then none
  else some (signAndRest.1 * Int.ofNat (ds.foldl (fun acc c => acc * 10 + (c.toNat - 48)) 0))

/-- A DOM node as seen by the handlers: whether it is an `Element`
(text nodes and the document are not), its `classList`, its `className`
when that property is a string (`none` models a missing or non-string
`className`, e.g. on SVG elements), and its `data-page-index` dataset
attribute. -/
structure DomElem where
  isElement : Bool
  classList : List String
  className : Option String
  pageIndexAttr : Option String
deriving Repr, DecidableEq

/-- An event target is modelled as its chain of DOM nodes, innermost
(the target itself) first, each followed by its `parentNode` ancestors;
the empty list models a `null` target. -/
abbrev TargetChain := List DomElem

/-- First check of `closestByClass`:
`el instanceof Element && el.classList && el.classList.contains(className)`
(on an `Element` the `classList` object is always truthy). -/
def elemMatchesByClassList (e : DomElem) (className : String) : Bool :=
  e.isElement && e.classList.contains className

/-- Second check of `closestByClass`:
`el instanceof Element && el.className && typeof el.className === 'string'
&& el.className.includes(className)` (the empty string is falsy). -/
def elemMatchesByClassName (e : DomElem) (className : String) : Bool :=
  e.isElement &&
    (match e.className with
     | some s => decide (s ≠ "") && strIncludes s className
     | none => false)

/-- `closestByClass` from `viewer.tsx`: walk from the node through its
parents, returning the first node matching by `classList` or by
`className` substring; `none` models the `null` result. -/
def closestByClass : TargetChain → String → Option DomElem
  | [], _ => none
  | e :: parents, className =>
    if elemMatchesByClassList e className then some e
    else if elemMatchesByClassName e className then some e
    else closestByClass parents className

/-- Method 3 of the page lookup in both handlers: if the event target
itself has a `classList` (it is an element) containing some class whose
lowercase form includes "page", use the target. -/
def pageClassFallback (target : TargetChain) : Option DomElem :=
  match target with
  | [] => none
  | e :: _ =>
    if e.isElement &&
        !(e.classList.filter (fun cls => strIncludes (jsToLower cls) "page")).isEmpty
    then some e else none

/-- The three-step page-element resolution shared by `dragoverHandler`
and `dropHandler`: `closestByClass` with class `PSPDFKit-Page`, then
with `pspdfkit-page`, then the lowercase-"page" classList fallback. -/
def findPageElement (target : TargetChain) : Option DomElem :=
  match closestByClass target "PSPDFKit-Page" with
  | some e => some e
  | none =>
    match closestByClass target "pspdfkit-page" with
    | some e => some e
    | none => pageClassFallback target

/-! ### Sidebar page (`src/unnamed/part_000`) -/

/-- The annotation-type labels wired to the three draggable sidebar
items via `onDragStart={(e) => handleDragStart(e, …)}`. -/
def sidebarAnnotationTypes : List String :=
  ["Signature", "DateSigned", "Initials"]

/-- Externally visible effects of one `handleDragStart` invocation:
whether `preventDefault` was called, the `(format, data)` pair passed to
`dataTransfer.setData` if any, and the `effectAllowed` value if set. -/
structure DragStartOutcome where
  prevented : Bool
  dataTransferSet : Option (String × String)
  effectAllowed : Option String
deriving Repr, DecidableEq

/-- `handleDragStart` from the sidebar page: with form-creator mode off
it prevents the default and returns; otherwise it sets the `text`
payload to the annotation type, sets `effectAllowed` to `copy`, and
stores the annotation type in the `draggingItem` state.  Returns the
outcome together with the new `draggingItem` state. -/
def handleDragStart (formCreatorMode : Bool) (annotationType : String)
    (draggingItem : Option String) : DragStartOutcome × Option String :=
  if !formCreatorMode then
    ({ prevented := true, dataTransferSet := none, effectAllowed := none }, draggingItem)
  else
    ({ prevented := false,
       dataTransferSet := some ("text", annotationType),
       effectAllowed := some "copy" }, some annotationType)

/-- `handleDragEnd` from the sidebar page: resets `draggingItem` to
`null`. -/
def handleDragEnd (_draggingItem : Option String) : Option String :=
  none

/-- UI events affecting the `draggingItem` state. -/
inductive DragUIEvent where
  | dragStart (formCreatorMode : Bool) (annotationType : String)
  | dragEnd
deriving Repr, DecidableEq

/-- One step of the `draggingItem` state under a UI event. -/
def stepDraggingItem (st : Option String) : DragUIEvent → Option String
  | DragUIEvent.dragStart mode ty => (handleDragStart mode ty st).2
  | DragUIEvent.dragEnd => handleDragEnd st

/-- The `draggingItem` state after a sequence of UI events, starting
from its `useState` initial value `null`. -/
def runDraggingItem (evs : List DragUIEvent) : Option String :=
  evs.foldl stepDraggingItem none

/-! ### Vendor SDK object model (`viewer.tsx`) -/

/-- `NutrientViewer.Geometry.Rect` as constructed by the drop handler:
`{ left, top, width, height }` with client coordinates. -/
structure Rect where
  left : Int
  top : Int
  width : Int
  height : Int
deriving Repr, DecidableEq

/-- Which vendor form-field constructor the drop handler invoked:
`FormFields.SignatureFormField` or `FormFields.TextFormField`. -/
inductive FFKind where
  | signatureField
  | textField
deriving Repr, DecidableEq

/-- `NutrientViewer.Annotations.WidgetAnnotation` as constructed by the
drop handler.  `pageIndex` is `Option Int` because the source computes
it with `parseInt`, which can yield `NaN` (modelled as `none`). -/
structure Widget where
  boundingBox : Rect
  formFieldName : String
  id : String
  pageIndex : Option Int
  name : String
deriving Repr, DecidableEq

/-- A vendor form field as constructed by the drop handler. -/
structure FormField where
  kind : FFKind
  annotationIds : List String
  name : String
  value : Option String
deriving Repr, DecidableEq

/-- An element of the array passed to `instance.create`. -/
inductive CreatedObj where
  | widget (w : Widget)
  | field (f : FormField)
deriving Repr, DecidableEq

/-- The opaque viewer instance environment: the coordinate transform
`transformContentClientToPageSpace` (fallible, since SDK errors inside
the drop handler's `try` are possible), the optional
`getPageIndexFromClientPoint` method (absent on some instances, and
itself fallible), and the fallible `instance.create` call. -/
structure ViewerInstance where
  transformContentClientToPageSpace : Rect → Option Int → Except String Rect
  getPageIndexFromClientPoint : Option (Int → Int → Except String Int)
  create : List CreatedObj → Except String Unit

/-- A native drag event as seen by the viewer handlers: the target
chain, the `dataTransfer` `text` payload (`none` models a missing
`dataTransfer` or an empty payload source), and the client
coordinates. -/
structure DragEventM where
  target : TargetChain
  dataTransferText : Option String
  clientX : Int
  clientY : Int
deriving Repr, DecidableEq

/-- Externally visible effects of one `dragoverHandler` invocation. -/
structure DragoverOutcome where
  earlyReturn : Bool
  supportedSet : Bool
  prevented : Bool
deriving Repr, DecidableEq

/-- `dragoverHandler` from `setupDragAndDrop`: returns immediately when
the `enabled` flag captured at setup is false; otherwise performs the
three-step page lookup and calls `preventDefault` exactly when a page
element is found. -/
def dragoverHandler (enabled : Bool) (ev : DragEventM) : DragoverOutcome :=
  if !enabled then
    { earlyReturn := true, supportedSet := false, prevented := false }
  else
    let pageElement := findPageElement ev.target
    { earlyReturn := false, supportedSet := true, prevented := pageElement.isSome }

/-- Externally visible effects of one `dropHandler` invocation:
control-flow flags, the label read from the drag payload, the page
lookup result and resolved page index, whether the page-position
fallback logged an error, the payload of every `instance.create` call
made, the successfully created widget/form-field pair if any, and
whether the surrounding `catch` logged an error. -/
structure DropOutcome where
  earlyReturn : Bool
  prevented : Bool
  stopped : Bool
  label : String
  lookupPerformed : Bool
  pageElementFound : Bool
  pageIndex : Option Int
  pageLookupErrorLogged : Bool
  createCalls : List (List CreatedObj)
  created : Option (Widget × FormField)
  createErrorLogged : Bool
deriving Repr

/-- The `await instance.create([widget, formField])` step shared by all
four switch branches, run inside the handler's `try`: on error the
`catch` logs it and nothing is created. -/
def attemptCreate (base : DropOutcome) (inst : ViewerInstance)
    (widget : Widget) (formField : FormField) : DropOutcome :=
  match inst.create [CreatedObj.widget widget, CreatedObj.field formField] with
  | Except.ok _ =>
    { base with createCalls := [[CreatedObj.widget widget, CreatedObj.field formField]],
                created := some (widget, formField), createErrorLogged := false }
  | Except.error _ =>
    { base with createCalls := [[CreatedObj.widget widget, CreatedObj.field formField]],
                created := none, createErrorLogged := true }

/-- Page-index resolution of the drop handler (`viewer.tsx` lines
182-203): from a found page element, `parseInt(dataset.pageIndex ||
'0')`; otherwise `getPageIndexFromClientPoint` when the instance has it
(an exception is caught and logged, keeping the initial 0); otherwise
the absence is logged and 0 is kept.  The second component records
whether one of the two `console.error` fallback messages was logged. -/
def resolvePageIndex (inst : ViewerInstance) (ev : DragEventM)
    (pageElement : Option DomElem) : Option Int × Bool :=
  match pageElement with
  | some e => (jsParseInt (jsOrStr e.pageIndexAttr "0"), false)
  | none =>
    match inst.getPageIndexFromClientPoint with
    | some f =>
      match f ev.clientX ev.clientY with
      | Except.ok i => (some i, false)
      | Except.error _ => (some 0, true)
    | none => (some 0, true)

/-- The drop handler's `switch (label)` (`viewer.tsx` lines 223-344),
given the page rectangle obtained from the first coordinate transform.
`base` is the outcome describing everything that happened before the
`try` block; the `DateSigned` and `Initials` branches re-run the
transform on their own client rectangle inside the same `try`, so a
failure there also ends in the logging `catch` (returning `base`, whose
`createErrorLogged` is set). -/
def dropSwitch (inst : ViewerInstance) (gen : Nat → String) (ev : DragEventM)
    (base : DropOutcome) (pageIndex : Option Int) (label : String)
    (pageRect : Rect) : DropOutcome :=
  let uniqueId := gen 0
  let formFieldName := jsToLower label ++ "-" ++ uniqueId
  if label = "Signature" then
    let widget : Widget :=
      { boundingBox := pageRect, formFieldName := formFieldName, id := uniqueId,
        pageIndex := pageIndex, name := "Signature" }
    let formField : FormField :=
      { kind := FFKind.signatureField, annotationIds := [uniqueId],
        name := formFieldName, value := none }
    attemptCreate base inst widget formField
  else if label = "DateSigned" then
    let dateClientRect : Rect :=
      { left := ev.clientX, top := ev.clientY, width := 225, height := 55 }
    match inst.transformContentClientToPageSpace dateClientRect pageIndex with
    | Except.error _ => base
    | Except.ok datePageRect =>
      let dateUniqueId := gen 1
      let dateFormFieldName := "date-" ++ dateUniqueId
      let widget : Widget :=
        { boundingBox := datePageRect, formFieldName := dateFormFieldName,
          id := dateUniqueId, pageIndex := pageIndex, name := "Date Signed" }
      let formField : FormField :=
        { kind := FFKind.textField, annotationIds := [dateUniqueId],
          name := dateFormFieldName, value := some "TBD: Date Signed" }
      attemptCreate base inst widget formField
  else if label = "Initials" then
    let initialsClientRect : Rect :=
      { left := ev.clientX, top := ev.clientY, width := 50, height := 50 }
    match inst.transformContentClientToPageSpace initialsClientRect pageIndex with
    | Except.error _ => base
    | Except.ok initialsPageRect =>
      let initialsUniqueId := gen 1
      let initialsFormFieldName := "initials-" ++ initialsUniqueId
      let widget : Widget :=
        { boundingBox := initialsPageRect, formFieldName := initialsFormFieldName,
          id := initialsUniqueId, pageIndex := pageIndex, name := "Initials" }
      let formField : FormField :=
        { kind := FFKind.signatureField, annotationIds := [initialsUniqueId],
          name := initialsFormFieldName, value := none }
      attemptCreate base inst widget formField
  else
    let defaultUniqueId := gen 1
    let defaultFormFieldName := "annotation-" ++ defaultUniqueId
    let widget : Widget :=
      { boundingBox := pageRect, formFieldName := defaultFormFieldName,
        id := defaultUniqueId, pageIndex := pageIndex,
        name := jsOrStr (some label) "Annotation" }
    let formField : FormField :=
      { kind := FFKind.signatureField, annotationIds := [defaultUniqueId],
        name := defaultFormFieldName, value := none }
    attemptCreate base inst widget formField

/-- The outcome of a drop with form-creator mode enabled, as it stands
when the handler enters its `try` block: default prevented, propagation
stopped, the label read from the payload, the page lookup done and the
page index resolved, nothing created yet.  Its `createErrorLogged` field
is `true` because this record is only returned as a whole when the
`try` block fails into the logging `catch`. -/
def dropBase (inst : ViewerInstance) (ev : DragEventM) : DropOutcome :=
  { earlyReturn := false, prevented := true, stopped := true,
    label := jsOrStr ev.dataTransferText "",
    lookupPerformed := true,
    pageElementFound := (findPageElement ev.target).isSome,
    pageIndex := (resolvePageIndex inst ev (findPageElement ev.target)).1,
    pageLookupErrorLogged := (resolvePageIndex inst ev (findPageElement ev.target)).2,
    createCalls := [], created := none, createErrorLogged := true }

/-- The enabled branch of `dropHandler`: read the label from the drag
payload, resolve the page element and page index, then run the creation
sequence inside `try`; a failing first coordinate transform ends in the
logging `catch` with nothing created. -/
def dropEnabled (inst : ViewerInstance) (gen : Nat → String)
    (ev : DragEventM) : DropOutcome :=
  match inst.transformContentClientToPageSpace
      { left := ev.clientX, top := ev.clientY, width := 225, height := 55 }
      (resolvePageIndex inst ev (findPageElement ev.target)).1 with
  | Except.error _ => dropBase inst ev
  | Except.ok pageRect =>
    dropSwitch inst gen ev (dropBase inst ev)
      (resolvePageIndex inst ev (findPageElement ev.target)).1
      (jsOrStr ev.dataTransferText "") pageRect

/-- `dropHandler` from `setupDragAndDrop`.  `gen n` is the result of the
`(n+1)`-th `NutrientViewer.generateInstantId()` call of this invocation
(the handler calls it once before the switch and, in every branch but
`Signature`, once more inside the branch). -/
def dropHandler (enabled : Bool) (inst : ViewerInstance) (gen : Nat → String)
    (ev : DragEventM) : DropOutcome :=
  if !enabled then
    { earlyReturn := true, prevented := false, stopped := false, label := "",
      lookupPerformed := false, pageElementFound := false, pageIndex := some 0,
      pageLookupErrorLogged := false, createCalls := [], created := none,
      createErrorLogged := false }
  else
    dropEnabled inst gen ev

/-! ### Viewer initialization effect (`viewer.tsx`, lines 49-89) -/

/-- Externally visible effects of one run of the initialization
`useEffect` body. -/
structure InitOutcome where
  loadCalled : Bool
  newRef : Option ViewerInstance
  readySet : Bool
  errorLogged : Bool

/-- One run of the initialization effect body: `NutrientViewer.load` is
invoked only when the container exists, `viewerInstanceRef.current` is
empty and the SDK global is present; on success the instance handle is
stored and readiness is set, on failure the error is logged and nothing
else happens. -/
def initEffect (containerPresent : Bool) (prevRef : Option ViewerInstance)
    (sdkPresent : Bool) (loadResult : Except String ViewerInstance) : InitOutcome :=
  if containerPresent && prevRef.isNone && sdkPresent then
    match loadResult with
    | Except.ok inst =>
      { loadCalled := true, newRef := some inst, readySet := true, errorLogged := false }
    | Except.error _ =>
      { loadCalled := true, newRef := prevRef, readySet := false, errorLogged := true }
  else
    { loadCalled := false, newRef := prevRef, readySet := false, errorLogged := false }

/-- Modelled React effect scheduling: an effect body re-runs after a
render exactly when there was no previous run (mount) or the dependency
list changed.  The initialization effect's dependency list is the empty
literal `[]` on every render. -/
def effectShouldRun (deps : List Int) (prevDeps : Option (List Int)) : Bool :=
  match prevDeps with
  | none => true
  | some pd => decide (pd ≠ deps)

/-! ### Concrete environments used to evaluate the handlers -/

/-- An instance whose SDK calls all succeed: the coordinate transform is
the identity on rectangles, `getPageIndexFromClientPoint` is absent, and
`create` accepts every payload. -/
def instOk : ViewerInstance :=
  { transformContentClientToPageSpace := fun r _ => Except.ok r
    getPageIndexFromClientPoint := none
    create := fun _ => Except.ok () }

/-- An instance whose `create` call always fails. -/
def instCreateFails : ViewerInstance :=
  { transformContentClientToPageSpace := fun r _ => Except.ok r
    getPageIndexFromClientPoint := none
    create := fun _ => Except.error "create failed" }

/-- An instance whose coordinate transform always fails. -/
def instTransformFails : ViewerInstance :=
  { transformContentClientToPageSpace := fun _ _ => Except.error "transform failed"
    getPageIndexFromClientPoint := none
    create := fun _ => Except.ok () }

/-- An instance whose `getPageIndexFromClientPoint` method exists but
throws. -/
def instPagePointThrows : ViewerInstance :=
  { transformContentClientToPageSpace := fun r _ => Except.ok r
    getPageIndexFromClientPoint := some (fun _ _ => Except.error "no page")
    create := fun _ => Except.ok () }

/-- A concrete instant-ID supply. -/
def gen0 : Nat → String := fun n => "id" ++ toString n

/-- A page element carrying `data-page-index="2"`. -/
def pageElem2 : DomElem :=
  { isElement := true, classList := ["PSPDFKit-Page"],
    className := some "PSPDFKit-Page", pageIndexAttr := some "2" }

/-- A page element with no `data-page-index` attribute. -/
def pageElemNoAttr : DomElem :=
  { isElement := true, classList := ["PSPDFKit-Page"],
    className := some "PSPDFKit-Page", pageIndexAttr := none }

/-- A target element with no page-related class anywhere in its
chain. -/
def plainElem : DomElem :=
  { isElement := true, classList := ["toolbar"],
    className := some "toolbar", pageIndexAttr := none }

/-- A drop event on `pageElem2` carrying the given `text` payload. -/
def evOnPage (lbl : Option String) : DragEventM :=
  { target := [pageElem2], dataTransferText := lbl, clientX := 10, clientY := 20 }

/-- A drop event on a non-page element carrying the given payload. -/
def evOffPage (lbl : Option String) : DragEventM :=
  { target := [plainElem], dataTransferText := lbl, clientX := 10, clientY := 20 }

/-! ### Spec-side helpers for stating properties of the drop handler -/

/-- The form-field name stem the drop handler derives from the dropped
label: `label.toLowerCase()` for `Signature`, the literals `date` /
`initials` for the other recognized labels, and `annotation` in the
default branch. -/
def fieldNameStemFor (label : String) : String :=
  if label = "Signature" then "signature"
  else if label = "DateSigned" then "date"
  else if label = "Initials" then "initials"
  else "annotation"

/-- Which vendor form-field constructor the drop handler selects for a
dropped label: `TextFormField` for `DateSigned`, `SignatureFormField`
otherwise. -/
def fieldKindFor (label : String) : FFKind :=
  if label = "DateSigned" then FFKind.textField else FFKind.signatureField

/-! ### Helper lemmas about the drop handler -/

theorem attemptCreate_pageIndex (base : DropOutcome) (inst : ViewerInstance)
    (widget : Widget) (formField : FormField) :
    (attemptCreate base inst widget formField).pageIndex = base.pageIndex := by
  unfold attemptCreate
  split <;> rfl

theorem attemptCreate_prevented (base : DropOutcome) (inst : ViewerInstance)
    (widget : Widget) (formField : FormField) :
    (attemptCreate base inst widget formField).prevented = base.prevented := by
  unfold attemptCreate
  split <;> rfl

theorem attemptCreate_calls_length (base : DropOutcome) (inst : ViewerInstance)
    (widget : Widget) (formField : FormField) :
    (attemptCreate base inst widget formField).createCalls.length = 1 := by
  unfold attemptCreate
  split <;> rfl

theorem attemptCreate_created (base : DropOutcome) (inst : ViewerInstance)
    (widget : Widget) (formField : FormField) (w : Widget) (f : FormField)
    (h : (attemptCreate base inst widget formField).created = some (w, f)) :
    w = widget ∧ f = formField ∧
      (attemptCreate base inst widget formField).createCalls =
        [[CreatedObj.widget w, CreatedObj.field f]] := by
  unfold attemptCreate at h ⊢
  split at h <;> simp_all

theorem attemptCreate_error_logged (base : DropOutcome) (inst : ViewerInstance)
    (widget : Widget) (formField : FormField) (e : String)
    (hc : ∀ p, inst.create p = Except.error e) :
    (attemptCreate base inst widget formField).created = none ∧
      (attemptCreate base inst widget formField).createErrorLogged = true := by
  unfold attemptCreate
  rw [hc]
  exact ⟨rfl, rfl⟩

theorem dropSwitch_pageIndex (inst : ViewerInstance) (gen : Nat → String)
    (ev : DragEventM) (base : DropOutcome) (pageIndex : Option Int)
    (label : String) (pageRect : Rect) :
    (dropSwitch inst gen ev base pageIndex label pageRect).pageIndex =
      base.pageIndex := by
  unfold dropSwitch
  dsimp only
  split
  · exact attemptCreate_pageIndex ..
  split
  · split
    · rfl
    · exact attemptCreate_pageIndex ..
  split
  · split
    · rfl
    · exact attemptCreate_pageIndex ..
  · exact attemptCreate_pageIndex ..

theorem dropSwitch_eq_signature (inst : ViewerInstance) (gen : Nat → String)
    (ev : DragEventM) (base : DropOutcome) (pageIndex : Option Int)
    (pageRect : Rect) :
    dropSwitch inst gen ev base pageIndex "Signature" pageRect =
      attemptCreate base inst
        { boundingBox := pageRect, formFieldName := "signature-" ++ gen 0,
          id := gen 0, pageIndex := pageIndex, name := "Signature" }
        { kind := FFKind.signatureField, annotationIds := [gen 0],
          name := "signature-" ++ gen 0, value := none } := by
  rfl

theorem dropSwitch_eq_dateSigned (inst : ViewerInstance) (gen : Nat → String)
    (ev : DragEventM) (base : DropOutcome) (pageIndex : Option Int)
    (pageRect : Rect) :
    dropSwitch inst gen ev base pageIndex "DateSigned" pageRect =
      (match inst.transformContentClientToPageSpace
          { left := ev.clientX, top := ev.clientY, width := 225, height := 55 }
          pageIndex with
       | Except.error _ => base
       | Except.ok r =>
         attemptCreate base inst
           { boundingBox := r, formFieldName := "date-" ++ gen 1, id := gen 1,
             pageIndex := pageIndex, name := "Date Signed" }
           { kind := FFKind.textField, annotationIds := [gen 1],
             name := "date-" ++ gen 1, value := some "TBD: Date Signed" }) := by
  rfl

theorem dropSwitch_eq_initials (inst : ViewerInstance) (gen : Nat → String)
    (ev : DragEventM) (base : DropOutcome) (pageIndex : Option Int)
    (pageRect : Rect) :
    dropSwitch inst gen ev base pageIndex "Initials" pageRect =
      (match inst.transformContentClientToPageSpace
          { left := ev.clientX, top := ev.clientY, width := 50, height := 50 }
          pageIndex with
       | Except.error _ => base
       | Except.ok r =>
         attemptCreate base inst
           { boundingBox := r, formFieldName := "initials-" ++ gen 1, id := gen 1,
             pageIndex := pageIndex, name := "Initials" }
           { kind := FFKind.signatureField, annotationIds := [gen 1],
             name := "initials-" ++ gen 1, value := none }) := by
  rfl

theorem dropSwitch_eq_default (inst : ViewerInstance) (gen : Nat → String)
    (ev : DragEventM) (base : DropOutcome) (pageIndex : Option Int)
    (label : String) (pageRect : Rect)
    (h1 : label ≠ "Signature") (h2 : label ≠ "DateSigned")
    (h3 : label ≠ "Initials") :
    dropSwitch inst gen ev base pageIndex label pageRect =
      attemptCreate base inst
        { boundingBox := pageRect, formFieldName := "annotation-" ++ gen 1,
          id := gen 1, pageIndex := pageIndex,
          name := jsOrStr (some label) "Annotation" }
        { kind := FFKind.signatureField, annotationIds := [gen 1],
          name := "annotation-" ++ gen 1, value := none } := by
  unfold dropSwitch
  dsimp only
  rw [if_neg h1, if_neg h2, if_neg h3]

theorem dropBase_created (inst : ViewerInstance) (ev : DragEventM) :
    (dropBase inst ev).created = none := rfl

theorem dropBase_pageIndex (inst : ViewerInstance) (ev : DragEventM) :
    (dropBase inst ev).pageIndex =
      (resolvePageIndex inst ev (findPageElement ev.target)).1 := rfl

theorem dropHandler_true_eq (inst : ViewerInstance) (gen : Nat → String)
    (ev : DragEventM) :
    dropHandler true inst gen ev = dropEnabled inst gen ev := rfl

theorem dropEnabled_pageIndex (inst : ViewerInstance) (gen : Nat → String)
    (ev : DragEventM) :
    (dropEnabled inst gen ev).pageIndex =
      (resolvePageIndex inst ev (findPageElement ev.target)).1 := by
  unfold dropEnabled
  split
  · rfl
  · rw [dropSwitch_pageIndex]
    rfl

theorem dropSwitch_calls_length (inst : ViewerInstance) (gen : Nat → String)
    (ev : DragEventM) (base : DropOutcome) (pageIndex : Option Int)
    (label : String) (pageRect : Rect) (hbase : base.createCalls = []) :
    (dropSwitch inst gen ev base pageIndex label pageRect).createCalls.length ≤ 1 := by
  unfold dropSwitch
  dsimp only
  split
  · exact Nat.le_of_eq (attemptCreate_calls_length ..)
  split
  · split
    · simp [hbase]
    · exact Nat.le_of_eq (attemptCreate_calls_length ..)
  split
  · split
    · simp [hbase]
    · exact Nat.le_of_eq (attemptCreate_calls_length ..)
  · exact Nat.le_of_eq (attemptCreate_calls_length ..)

theorem dropEnabled_calls_length (inst : ViewerInstance) (gen : Nat → String)
    (ev : DragEventM) :
    (dropEnabled inst gen ev).createCalls.length ≤ 1 := by
  unfold dropEnabled
  split
  · exact Nat.zero_le 1
  · exact dropSwitch_calls_length inst gen ev _ _ _ _ rfl

theorem dropEnabled_created_spec (inst : ViewerInstance) (gen : Nat → String)
    (ev : DragEventM) (w : Widget) (f : FormField)
    (h : (dropEnabled inst gen ev).created = some (w, f)) :
    (dropEnabled inst gen ev).createCalls =
        [[CreatedObj.widget w, CreatedObj.field f]] ∧
      f.kind = fieldKindFor (jsOrStr ev.dataTransferText "") ∧
      f.annotationIds = [w.id] ∧
      w.formFieldName = f.name ∧
      f.name = fieldNameStemFor (jsOrStr ev.dataTransferText "") ++ "-" ++ w.id ∧
      (w.id = gen 0 ∨ w.id = gen 1) := by
  unfold dropEnabled at h ⊢
  rcases ht : inst.transformContentClientToPageSpace
      { left := ev.clientX, top := ev.clientY, width := 225, height := 55 }
      (resolvePageIndex inst ev (findPageElement ev.target)).1 with e | pageRect
  · simp only [ht] at h
    simp [dropBase] at h
  · simp only [ht] at h ⊢
    by_cases h1 : jsOrStr ev.dataTransferText "" = "Signature"
    · rw [h1] at h ⊢
      rw [dropSwitch_eq_signature] at h ⊢
      obtain ⟨hw, hf, hcalls⟩ := attemptCreate_created _ _ _ _ _ _ h
      subst hw; subst hf
      exact ⟨hcalls, rfl, rfl, rfl, rfl, Or.inl rfl⟩
    · by_cases h2 : jsOrStr ev.dataTransferText "" = "DateSigned"
      · rw [h2] at h ⊢
        rw [dropSwitch_eq_dateSigned] at h ⊢
        rcases ht2 : inst.transformContentClientToPageSpace
            { left := ev.clientX, top := ev.clientY, width := 225, height := 55 }
            (resolvePageIndex inst ev (findPageElement ev.target)).1 with e2 | r2
        · simp only [ht2] at h
          simp [dropBase] at h
        · simp only [ht2] at h ⊢
          obtain ⟨hw, hf, hcalls⟩ := attemptCreate_created _ _ _ _ _ _ h
          subst hw; subst hf
          exact ⟨hcalls, rfl, rfl, rfl, rfl, Or.inr rfl⟩
      · by_cases h3 : jsOrStr ev.dataTransferText "" = "Initials"
        · rw [h3] at h ⊢
          rw [dropSwitch_eq_initials] at h ⊢
          rcases ht2 : inst.transformContentClientToPageSpace
              { left := ev.clientX, top := ev.clientY, width := 50, height := 50 }
              (resolvePageIndex inst ev (findPageElement ev.target)).1 with e2 | r2
          · simp only [ht2] at h
            simp [dropBase] at h
          · simp only [ht2] at h ⊢
            obtain ⟨hw, hf, hcalls⟩ := attemptCreate_created _ _ _ _ _ _ h
            subst hw; subst hf
            exact ⟨hcalls, rfl, rfl, rfl, rfl, Or.inr rfl⟩
        · rw [dropSwitch_eq_default inst gen ev _ _ _ _ h1 h2 h3] at h ⊢
          obtain ⟨hw, hf, hcalls⟩ := attemptCreate_created _ _ _ _ _ _ h
          subst hw; subst hf
          refine ⟨hcalls, ?_, rfl, rfl, ?_, Or.inr rfl⟩
          · simp [fieldKindFor, h2]
          · simp only [fieldNameStemFor, if_neg h1, if_neg h2, if_neg h3]
            rfl

theorem dropSwitch_create_always_fails (inst : ViewerInstance)
    (gen : Nat → String) (ev : DragEventM) (base : DropOutcome)
    (pageIndex : Option Int) (label : String) (pageRect : Rect) (e : String)
    (hbase1 : base.created = none) (hbase2 : base.createErrorLogged = true)
    (hc : ∀ p, inst.create p = Except.error e) :
    (dropSwitch inst gen ev base pageIndex label pageRect).created = none ∧
      (dropSwitch inst gen ev base pageIndex label pageRect).createErrorLogged
        = true := by
  unfold dropSwitch
  dsimp only
  split
  · exact attemptCreate_error_logged _ _ _ _ e hc
  split
  · split
    · exact ⟨hbase1, hbase2⟩
    · exact attemptCreate_error_logged _ _ _ _ e hc
  split
  · split
    · exact ⟨hbase1, hbase2⟩
    · exact attemptCreate_error_logged _ _ _ _ e hc
  · exact attemptCreate_error_logged _ _ _ _ e hc

theorem dropEnabled_create_always_fails (inst : ViewerInstance)
    (gen : Nat → String) (ev : DragEventM) (e : String)
    (hc : ∀ p, inst.create p = Except.error e) :
    (dropEnabled inst gen ev).created = none ∧
      (dropEnabled inst gen ev).createErrorLogged = true := by
  unfold dropEnabled
  split
  · exact ⟨rfl, rfl⟩
  · exact dropSwitch_create_always_fails _ _ _ _ _ _ _ e rfl rfl hc

theorem dropEnabled_transform_always_fails (inst : ViewerInstance)
    (gen : Nat → String) (ev : DragEventM) (e : String)
    (ht : ∀ r i, inst.transformContentClientToPageSpace r i = Except.error e) :
    dropEnabled inst gen ev = dropBase inst ev := by
  unfold dropEnabled
  rw [ht]

theorem resolvePageIndex_found (inst : ViewerInstance) (ev : DragEventM)
    (e : DomElem) :
    resolvePageIndex inst ev (some e) =
      (jsParseInt (jsOrStr e.pageIndexAttr "0"), false) := rfl

theorem resolvePageIndex_no_method (inst : ViewerInstance) (ev : DragEventM)
    (hm : inst.getPageIndexFromClientPoint = none) :
    resolvePageIndex inst ev none = (some 0, true) := by
  unfold resolvePageIndex
  rw [hm]

theorem resolvePageIndex_method_throws (inst : ViewerInstance)
    (ev : DragEventM) (f : Int → Int → Except String Int) (e : String)
    (hm : inst.getPageIndexFromClientPoint = some f)
    (hf : f ev.clientX ev.clientY = Except.error e) :
    resolvePageIndex inst ev none = (some 0, true) := by
  unfold resolvePageIndex
  rw [hm]
  dsimp only
  rw [hf]

theorem dropSwitch_attempts_or_logs (inst : ViewerInstance)
    (gen : Nat → String) (ev : DragEventM) (base : DropOutcome)
    (pageIndex : Option Int) (label : String) (pageRect : Rect)
    (hbase : base.createErrorLogged = true) :
    (dropSwitch inst gen ev base pageIndex label pageRect).createCalls.length = 1 ∨
      (dropSwitch inst gen ev base pageIndex label pageRect).createErrorLogged
        = true := by
  unfold dropSwitch
  dsimp only
  split
  · exact Or.inl (attemptCreate_calls_length ..)
  split
  · split
    · exact Or.inr hbase
    · exact Or.inl (attemptCreate_calls_length ..)
  split
  · split
    · exact Or.inr hbase
    · exact Or.inl (attemptCreate_calls_length ..)
  · exact Or.inl (attemptCreate_calls_length ..)

theorem dropEnabled_attempts_or_logs (inst : ViewerInstance)
    (gen : Nat → String) (ev : DragEventM) :
    (dropEnabled inst gen ev).createCalls.length = 1 ∨
      (dropEnabled inst gen ev).createErrorLogged = true := by
  unfold dropEnabled
  split
  · exact Or.inr rfl
  · exact dropSwitch_attempts_or_logs inst gen ev _ _ _ _ rfl

/-! ### Concrete created objects, as produced by the environments above -/

/-- The widget created by a `Signature` drop at (10, 20) on page 2 with
the identity transform and ID supply `gen0`. -/
def sigWidgetExample : Widget :=
  { boundingBox := { left := 10, top := 20, width := 225, height := 55 },
    formFieldName := "signature-id0", id := "id0", pageIndex := some 2,
    name := "Signature" }

/-- The form field created together with `sigWidgetExample`. -/
def sigFieldExample : FormField :=
  { kind := FFKind.signatureField, annotationIds := ["id0"],
    name := "signature-id0", value := none }

/-- The widget created by a `DateSigned` drop at (10, 20) on page 2. -/
def dateWidgetExample : Widget :=
  { boundingBox := { left := 10, top := 20, width := 225, height := 55 },
    formFieldName := "date-id1", id := "id1", pageIndex := some 2,
    name := "Date Signed" }

/-- The form field created together with `dateWidgetExample`. -/
def dateFieldExample : FormField :=
  { kind := FFKind.textField, annotationIds := ["id1"],
    name := "date-id1", value := some "TBD: Date Signed" }

/-- The widget created by a drop with an empty label at (10, 20) on
page 2 (the switch's default branch). -/
def annWidgetExample : Widget :=
  { boundingBox := { left := 10, top := 20, width := 225, height := 55 },
    formFieldName := "annotation-id1", id := "id1", pageIndex := some 2,
    name := "Annotation" }

/-- The form field created together with `annWidgetExample`. -/
def annFieldExample : FormField :=
  { kind := FFKind.signatureField, annotationIds := ["id1"],
    name := "annotation-id1", value := none }

/-- The widget created by an `Initials` drop at (10, 20) on page 2. -/
def initialsWidgetExample : Widget :=
  { boundingBox := { left := 10, top := 20, width := 50, height := 50 },
    formFieldName := "initials-id1", id := "id1", pageIndex := some 2,
    name := "Initials" }

/-- The form field created together with `initialsWidgetExample`. -/
def initialsFieldExample : FormField :=
  { kind := FFKind.signatureField, annotationIds := ["id1"],
    name := "initials-id1", value := none }

/-! ### The claims -/

/-- Claim C1: form-creator mode gates all drag-and-drop.  With the mode
off, `handleDragStart` calls `preventDefault` and sets no dataTransfer
payload; and a `dragover` or `drop` handler whose captured `enabled`
flag is false returns immediately — no page-element lookup, no
`preventDefault`, and no SDK object-creation call. -/
theorem formCreatorMode_gates_all_drag_and_drop (ty : String)
    (st : Option String) (inst : ViewerInstance) (gen : Nat → String)
    (ev : DragEventM) :
    (handleDragStart false ty st).1.prevented = true ∧
    (handleDragStart false ty st).1.dataTransferSet = none ∧
    dragoverHandler false ev =
      { earlyReturn := true, supportedSet := false, prevented := false } ∧
    (dropHandler false inst gen ev).earlyReturn = true ∧
    (dropHandler false inst gen ev).prevented = false ∧
    (dropHandler false inst gen ev).lookupPerformed = false ∧
    (dropHandler false inst gen ev).createCalls = [] :=
  ⟨rfl, rfl, rfl, rfl, rfl, rfl, rfl⟩

/-- Claim C5: the SDK initialization call happens at most once per
mounted `Viewer`: `NutrientViewer.load` is not invoked while an instance
handle is stored, and the initializing effect (empty dependency list)
runs on mount only, never again on re-render. -/
theorem viewer_load_at_most_once (c s : Bool) (inst : ViewerInstance)
    (r : Except String ViewerInstance) :
    (initEffect c (some inst) s r).loadCalled = false ∧
    (initEffect c (some inst) s r).newRef = some inst ∧
    effectShouldRun [] none = true ∧
    effectShouldRun [] (some []) = false := by
  refine ⟨?_, ?_, rfl, by decide⟩ <;> simp [initEffect]

/-- Claim C6: `draggingItem` is a transient name of the icon being
dragged: a dragstart sets it to the annotation type exactly when
form-creator mode is enabled (and leaves it unchanged otherwise), and
every dragend resets it to `null`, so after any event sequence ending in
a dragend it is `null`. -/
theorem draggingItem_transient (st : Option String) (ty : String)
    (evs : List DragUIEvent) :
    stepDraggingItem st (DragUIEvent.dragStart true ty) = some ty ∧
    stepDraggingItem st (DragUIEvent.dragStart false ty) = st ∧
    stepDraggingItem st DragUIEvent.dragEnd = none ∧
    runDraggingItem (evs ++ [DragUIEvent.dragEnd]) = none := by
  refine ⟨rfl, rfl, rfl, ?_⟩
  unfold runDraggingItem
  rw [List.foldl_append]
  rfl

/-- Claim C7: with form-creator mode enabled, a dragstart on a sidebar
icon sets the `text` dataTransfer payload to exactly that icon's
annotation-type label (one of `Signature`, `DateSigned`, `Initials`) and
sets `effectAllowed` to `copy`. -/
theorem dragstart_sets_text_payload (ty : String) (st : Option String)
    (_h : ty ∈ sidebarAnnotationTypes) :
    (handleDragStart true ty st).1.dataTransferSet = some ("text", ty) ∧
    (handleDragStart true ty st).1.effectAllowed = some "copy" ∧
    (handleDragStart true ty st).1.prevented = false ∧
    sidebarAnnotationTypes = ["Signature", "DateSigned", "Initials"] :=
  ⟨rfl, rfl, rfl, rfl⟩

theorem dragstart_sets_text_payload_witness :
    (handleDragStart true "Signature" none).1.dataTransferSet
        = some ("text", "Signature") ∧
      (handleDragStart true "Signature" none).1.effectAllowed = some "copy" :=
  ⟨(dragstart_sets_text_payload "Signature" none (by decide)).1,
   (dragstart_sets_text_payload "Signature" none (by decide)).2.1⟩

/-- Claim C2: with form-creator mode enabled, the drop handler creates
the form field whose kind matches the dragged label — `Signature` and
`Initials` produce a `SignatureFormField`, `DateSigned` produces the
text-based date field — and each is created together with exactly one
widget in a single `instance.create` call. -/
theorem drop_label_selects_created_field (inst : ViewerInstance)
    (gen : Nat → String) (ev : DragEventM) (w : Widget) (f : FormField)
    (h : (dropHandler true inst gen ev).created = some (w, f)) :
    (dropHandler true inst gen ev).createCalls =
        [[CreatedObj.widget w, CreatedObj.field f]] ∧
      (ev.dataTransferText = some "Signature" →
        f.kind = FFKind.signatureField) ∧
      (ev.dataTransferText = some "DateSigned" → f.kind = FFKind.textField) ∧
      (ev.dataTransferText = some "Initials" →
        f.kind = FFKind.signatureField) := by
  rw [dropHandler_true_eq] at h ⊢
  obtain ⟨hcalls, hkind, -⟩ := dropEnabled_created_spec inst gen ev w f h
  refine ⟨hcalls, ?_, ?_, ?_⟩ <;> intro hl <;> rw [hl] at hkind <;>
    simpa [fieldKindFor, jsOrStr] using hkind

theorem drop_label_selects_created_field_witness :
    (dropHandler true instOk gen0 (evOnPage (some "DateSigned"))).createCalls =
        [[CreatedObj.widget dateWidgetExample,
          CreatedObj.field dateFieldExample]] ∧
      dateFieldExample.kind = FFKind.textField :=
  ⟨(drop_label_selects_created_field instOk gen0 (evOnPage (some "DateSigned"))
      dateWidgetExample dateFieldExample (by decide)).1,
   (drop_label_selects_created_field instOk gen0 (evOnPage (some "DateSigned"))
      dateWidgetExample dateFieldExample (by decide)).2.2.1 rfl⟩

/-- Claim C3 counterexample: at a concrete `Signature` drop the single
array passed to `instance.create` has two elements (one widget, one form
field), not three — the handler does not pass a triple to the creation
API. -/
theorem create_call_payload_not_triple :
    ((dropHandler true instOk gen0
        (evOnPage (some "Signature"))).createCalls.map List.length) = [2] ∧
      ((dropHandler true instOk gen0
        (evOnPage (some "Signature"))).createCalls.map List.length) ≠ [3] := by
  constructor
  · decide
  · decide

/-- Claim C3 as amended: for each recognized label the switch constructs
a pair of near-identical SDK objects — one widget annotation and one
form field — and passes that two-element array to the SDK creation API
in a single call. -/
theorem create_call_payload_is_widget_field_pair (inst : ViewerInstance)
    (gen : Nat → String) (ev : DragEventM) (w : Widget) (f : FormField)
    (_hrec : jsOrStr ev.dataTransferText "" ∈ sidebarAnnotationTypes)
    (h : (dropHandler true inst gen ev).created = some (w, f)) :
    (dropHandler true inst gen ev).createCalls =
        [[CreatedObj.widget w, CreatedObj.field f]] ∧
      ((dropHandler true inst gen ev).createCalls.map List.length) = [2] := by
  rw [dropHandler_true_eq] at h ⊢
  obtain ⟨hcalls, -⟩ := dropEnabled_created_spec inst gen ev w f h
  refine ⟨hcalls, ?_⟩
  rw [hcalls]
  rfl

theorem create_call_payload_is_widget_field_pair_witness :
    (dropHandler true instOk gen0 (evOnPage (some "Signature"))).createCalls =
        [[CreatedObj.widget sigWidgetExample, CreatedObj.field sigFieldExample]] :=
  (create_call_payload_is_widget_field_pair instOk gen0
    (evOnPage (some "Signature")) sigWidgetExample sigFieldExample
    (by decide) (by decide)).1

/-- Claim C4: errors from the SDK's asynchronous calls are caught and
logged: a failing `NutrientViewer.load` logs the error, stores no
instance and sets no readiness; the drop handler never calls
`instance.create` more than once (no retry); an always-failing `create`
leaves nothing created with the error logged; and an always-failing
coordinate transform ends in the logging `catch` with no creation call
made — the handler completes in every case. -/
theorem sdk_errors_caught_and_logged (e : String) (inst : ViewerInstance)
    (gen : Nat → String) (ev : DragEventM) (enabled : Bool) :
    (initEffect true none true (Except.error e)).loadCalled = true ∧
    (initEffect true none true (Except.error e)).errorLogged = true ∧
    (initEffect true none true (Except.error e)).newRef = none ∧
    (initEffect true none true (Except.error e)).readySet = false ∧
    (dropHandler enabled inst gen ev).createCalls.length ≤ 1 ∧
    ((∀ p, inst.create p = Except.error e) →
      (dropHandler true inst gen ev).created = none ∧
      (dropHandler true inst gen ev).createErrorLogged = true) ∧
    ((∀ r i, inst.transformContentClientToPageSpace r i = Except.error e) →
      (dropHandler true inst gen ev).createCalls = [] ∧
      (dropHandler true inst gen ev).created = none ∧
      (dropHandler true inst gen ev).createErrorLogged = true) := by
  refine ⟨rfl, rfl, rfl, rfl, ?_, ?_, ?_⟩
  · cases enabled
    · exact Nat.zero_le 1
    · exact dropEnabled_calls_length inst gen ev
  · intro hc
    rw [dropHandler_true_eq]
    exact dropEnabled_create_always_fails inst gen ev e hc
  · intro ht
    rw [dropHandler_true_eq, dropEnabled_transform_always_fails inst gen ev e ht]
    exact ⟨rfl, rfl, rfl⟩

theorem sdk_errors_caught_and_logged_witness :
    (dropHandler true instCreateFails gen0
        (evOnPage (some "Signature"))).created = none ∧
      (dropHandler true instCreateFails gen0
        (evOnPage (some "Signature"))).createErrorLogged = true :=
  (sdk_errors_caught_and_logged "create failed" instCreateFails gen0
    (evOnPage (some "Signature")) true).2.2.2.2.2.1 (fun _ => rfl)

/-- Claim C8: ID coherence of every successful drop — the widget and the
form field created with it are linked by one freshly generated instant
ID: the widget's `formFieldName` equals the field's `name`, that name is
the label-derived stem followed by the ID, the widget's `id` is that ID,
and the field's `annotationIds` is exactly the one-element list holding
the same ID. -/
theorem created_pair_id_coherence (inst : ViewerInstance)
    (gen : Nat → String) (ev : DragEventM) (w : Widget) (f : FormField)
    (h : (dropHandler true inst gen ev).created = some (w, f)) :
    w.formFieldName = f.name ∧
      f.name = fieldNameStemFor (jsOrStr ev.dataTransferText "") ++ "-" ++ w.id ∧
      f.annotationIds = [w.id] ∧
      (w.id = gen 0 ∨ w.id = gen 1) := by
  rw [dropHandler_true_eq] at h
  obtain ⟨-, -, hids, hffn, hname, hid⟩ := dropEnabled_created_spec inst gen ev w f h
  exact ⟨hffn, hname, hids, hid⟩

theorem created_pair_id_coherence_witness :
    initialsWidgetExample.formFieldName = initialsFieldExample.name ∧
      initialsFieldExample.annotationIds = [initialsWidgetExample.id] :=
  ⟨(created_pair_id_coherence instOk gen0 (evOnPage (some "Initials"))
      initialsWidgetExample initialsFieldExample (by decide)).1,
   (created_pair_id_coherence instOk gen0 (evOnPage (some "Initials"))
      initialsWidgetExample initialsFieldExample (by decide)).2.2.1⟩

/-- Claim C9: a dropped label outside the three recognized ones —
including the empty string read when the drag carries no `text` payload
— still ends in the switch's default branch: a widget paired with a
`SignatureFormField` named `annotation-` plus a fresh ID, using the
default 225-by-55 bounding box; once past the enabled check a drop never
silently does nothing (it either makes its one creation call or logs an
error). -/
theorem unrecognized_label_still_creates_default (inst : ViewerInstance)
    (gen : Nat → String) (ev : DragEventM)
    (hlab : jsOrStr ev.dataTransferText "" ∉ sidebarAnnotationTypes) :
    ((dropHandler true inst gen ev).createCalls.length = 1 ∨
      (dropHandler true inst gen ev).createErrorLogged = true) ∧
    (∀ w f, (dropHandler true inst gen ev).created = some (w, f) →
      f.kind = FFKind.signatureField ∧
      f.name = "annotation-" ++ gen 1 ∧
      w.formFieldName = "annotation-" ++ gen 1 ∧
      w.id = gen 1 ∧
      inst.transformContentClientToPageSpace
          { left := ev.clientX, top := ev.clientY, width := 225, height := 55 }
          (dropHandler true inst gen ev).pageIndex = Except.ok w.boundingBox) := by
  simp only [sidebarAnnotationTypes, List.mem_cons, List.mem_singleton,
    not_or] at hlab
  obtain ⟨h1, h2, h3, -⟩ := hlab
  constructor
  · rw [dropHandler_true_eq]
    exact dropEnabled_attempts_or_logs inst gen ev
  · intro w f h
    rw [dropHandler_true_eq] at h ⊢
    unfold dropEnabled at h ⊢
    rcases ht : inst.transformContentClientToPageSpace
        { left := ev.clientX, top := ev.clientY, width := 225, height := 55 }
        (resolvePageIndex inst ev (findPageElement ev.target)).1 with e | pr
    · simp only [ht] at h
      simp [dropBase] at h
    · simp only [ht] at h ⊢
      rw [dropSwitch_eq_default inst gen ev _ _ _ _ h1 h2 h3] at h ⊢
      obtain ⟨hw, hf, -⟩ := attemptCreate_created _ _ _ _ _ _ h
      subst hw; subst hf
      refine ⟨rfl, rfl, rfl, rfl, ?_⟩
      rw [attemptCreate_pageIndex]
      exact ht

theorem unrecognized_label_still_creates_default_witness :
    ((dropHandler true instOk gen0 (evOnPage none)).createCalls.length = 1 ∨
      (dropHandler true instOk gen0 (evOnPage none)).createErrorLogged = true) ∧
      annFieldExample.kind = FFKind.signatureField ∧
      annFieldExample.name = "annotation-" ++ gen0 1 :=
  ⟨(unrecognized_label_still_creates_default instOk gen0 (evOnPage none)
      (by decide)).1,
   ((unrecognized_label_still_creates_default instOk gen0 (evOnPage none)
      (by decide)).2 annWidgetExample annFieldExample (by decide)).1,
   ((unrecognized_label_still_creates_default instOk gen0 (evOnPage none)
      (by decide)).2 annWidgetExample annFieldExample (by decide)).2.1⟩

/-- Claim C10: page-index fallback.  When no page element is found and
the instance has no `getPageIndexFromClientPoint` (or that method
throws), the drop proceeds with page index 0 instead of aborting; when a
page element is found, the page index is parsed from its
`data-page-index` attribute, defaulting to 0 when the attribute is
absent. -/
theorem page_index_fallback (inst : ViewerInstance) (gen : Nat → String)
    (ev : DragEventM) (pe : DomElem) :
    (findPageElement ev.target = none →
      (inst.getPageIndexFromClientPoint = none ∨
        (∃ f e, inst.getPageIndexFromClientPoint = some f ∧
          f ev.clientX ev.clientY = Except.error e)) →
      (dropHandler true inst gen ev).pageIndex = some 0 ∧
      ((dropHandler true inst gen ev).createCalls.length = 1 ∨
        (dropHandler true inst gen ev).createErrorLogged = true)) ∧
    (findPageElement ev.target = some pe →
      (dropHandler true inst gen ev).pageIndex =
        jsParseInt (jsOrStr pe.pageIndexAttr "0") ∧
      (pe.pageIndexAttr = none →
        (dropHandler true inst gen ev).pageIndex = some 0)) := by
  constructor
  · intro hnone hm
    constructor
    · rw [dropHandler_true_eq, dropEnabled_pageIndex, hnone]
      rcases hm with hm | ⟨f, e, hm, hf⟩
      · rw [resolvePageIndex_no_method inst ev hm]
      · rw [resolvePageIndex_method_throws inst ev f e hm hf]
    · rw [dropHandler_true_eq]
      exact dropEnabled_attempts_or_logs inst gen ev
  · intro hfound
    have hpi : (dropHandler true inst gen ev).pageIndex
        = jsParseInt (jsOrStr pe.pageIndexAttr "0") := by
      rw [dropHandler_true_eq, dropEnabled_pageIndex, hfound,
        resolvePageIndex_found]
    refine ⟨hpi, ?_⟩
    intro hattr
    rw [hpi, hattr]
    decide

theorem page_index_fallback_witness :
    (dropHandler true instOk gen0
        (evOffPage (some "Signature"))).pageIndex = some 0 ∧
      (dropHandler true instOk gen0 (evOnPage (some "Signature"))).pageIndex
        = jsParseInt (jsOrStr pageElem2.pageIndexAttr "0") :=
  ⟨((page_index_fallback instOk gen0 (evOffPage (some "Signature"))
      pageElem2).1 (by decide) (Or.inl rfl)).1,
   ((page_index_fallback instOk gen0 (evOnPage (some "Signature"))
      pageElem2).2 (by decide)).1⟩

end DragDrop
